import Mathlib

/-!
Verification of the LinuxCNC-RIO HAL component `rio.c`
(src/Output/TinyFPGA-BX_BOB/LinuxCNC/Components/rio.c).

Shallow embedding conventions:
* C `float`/`double` arithmetic is modelled exactly over `ℚ` (the algorithms
  under study are control-flow and algebraic laws, not rounding behaviour).
* Fixed-width machine integers are modelled as `Int` with explicit reduction
  `% 2^32` (`wrap32`) where the C code relies on wraparound: the `int32_t`
  counter subtraction and the `int64 → hal_s32_t` store.  The `int64_t`
  accumulator is modelled as an unbounded `Int` (signed-64 overflow is
  undefined behaviour in C, and the claims stay inside the defined range).
* Compile-time constants coming from the generated header `rio.h`
  (`JOINTS`, `PRU_BASEFREQ`, `PRU_OSC`, `STEP_MASK`, the header tags
  `PRU_DATA`/`PRU_ESTOP`, the per-joint feedback configuration arrays) are
  parameters gathered in the `Consts` structure; the `.c` file under
  verification treats them as opaque configuration values.
* HAL pins read by a tick are per-tick inputs (`AxisIn`, `ReadIn`); HAL
  state (params, statics, output pins) lives in `AxisState` / `ReadState`.
-/

/-- Compile-time configuration from the generated `rio.h` header. -/
structure Consts where
  JOINTS : Nat
  PRU_BASEFREQ : ℚ
  PRU_OSC : ℚ
  STEP_MASK : ℚ
  /-- inbound header tag for a valid payload -/
  PRU_DATA : Int
  /-- inbound header tag for an e-stop notification -/
  PRU_ESTOP : Int
  VARIABLE_INPUTS : Nat
  DIGITAL_INPUT_BYTES : Nat
  joints_fb_scale : Nat → Int
  /-- `true` = JOINT_FB_ABS, `false` = incremental -/
  joints_fb_type : Nat → Bool
  /-- Models the C expression `*data->stepperEnable == 0` in `update_freq`
  (rio.c line 684): `data->stepperEnable` is an array of pin *pointers*, so
  the expression dereferences to the pointer `data->stepperEnable[0]` and
  compares it with `NULL`.  After a successful `rtapi_app_main` every pin
  pointer is non-null, so this flag is `false` in any run of the installed
  component, and no pin value is read. -/
  stepperEnable0Null : Bool

/-- Per-tick pin inputs of one axis as read by `update_freq`. -/
structure AxisIn where
  pos_mode : Bool
  pos_cmd : ℚ
  vel_cmd : ℚ
  pgain : ℚ
  ff1gain : ℚ
  deadband : ℚ
  /-- the `stepperEnable` pin of this axis (never actually read by
  `update_freq`, see `Consts.stepperEnable0Null`) -/
  enable : Bool

/-- Per-axis persistent state of `update_freq` (HAL params, statics and
output pins owned by the component). -/
structure AxisState where
  pos_scale : ℚ
  old_scale : ℚ
  scale_recip : ℚ
  maxvel : ℚ
  maxaccel : ℚ
  freq : ℚ
  prev_cmd : ℚ
  cmd_d : ℚ
  freq_cmd : ℚ
  /-- the `pos-fb` output pin, read back as feedback by the position loop -/
  pos_fb : ℚ

/-- State of one axis right after `rtapi_app_main`: `hal_malloc` zeroes the
shared block, then init sets `pos_scale = 1.0` and `maxaccel = 1.0`.
`maxvel` is never registered as a HAL parameter by this component, so it
keeps its zeroed value for the whole run. -/
def initAxisState : AxisState :=
  { pos_scale := 1, old_scale := 0, scale_recip := 0, maxvel := 0,
    maxaccel := 1, freq := 0, prev_cmd := 0, cmd_d := 0, freq_cmd := 0,
    pos_fb := 0 }

/-- The scale value in effect for a tick: `update_freq` first detects a scale
change (`pos_scale != old_scale`) and, only then, replaces a too-small value
(`|scale| < 1e-20`) by `1.0`. -/
def effScale (s : AxisState) : ℚ :=
  if s.pos_scale ≠ s.old_scale ∧ |s.pos_scale| < 1 / 10 ^ 20 then 1
  else s.pos_scale

/-- `max_freq` of a tick: starts at `PRU_BASEFREQ / 2`; a positive `maxvel`
parameter lowers it to `maxvel * |scale|` when that is below the ceiling. -/
def maxFreqOf (c : Consts) (p mv : ℚ) : ℚ :=
  if mv ≤ 0 then c.PRU_BASEFREQ / 2
  else if mv * |p| > c.PRU_BASEFREQ / 2 then c.PRU_BASEFREQ / 2
  else mv * |p|

/-- The `maxvel` parameter after the tick's two-way clamp: non-positive
values are zeroed, too-aggressive values are lowered to `max_freq/|scale|`. -/
def maxvelParam (c : Consts) (p mv : ℚ) : ℚ :=
  if mv ≤ 0 then 0
  else if mv * |p| > c.PRU_BASEFREQ / 2 then (c.PRU_BASEFREQ / 2) / |p|
  else mv

/-- `max_ac` of a tick: starts at `max_freq * recip_dt` (zero to full speed
in one period); a positive `maxaccel` parameter lowers it to
`maxaccel * |scale|` when that is below the ceiling. -/
def maxAcOf (dt p ma mf : ℚ) : ℚ :=
  if ma ≤ 0 then mf * (1 / dt)
  else if ma * |p| > mf * (1 / dt) then mf * (1 / dt)
  else ma * |p|

/-- The `maxaccel` parameter after the tick's two-way clamp. -/
def maxaccParam (dt p ma mf : ℚ) : ℚ :=
  if ma ≤ 0 then 0
  else if ma * |p| > mf * (1 / dt) then (mf * (1 / dt)) / |p|
  else ma

/-- `error = command - feedback` of the position loop. -/
def ctrlError (inp : AxisIn) (s : AxisState) : ℚ :=
  inp.pos_cmd - s.pos_fb

/-- Deadband application of the position loop. -/
def applyDeadband (db e : ℚ) : ℚ :=
  if e > db then e - db else if e < -db then e + db else 0

/-- Effective `pgain`: a value configured as exactly 0 means "unset" and
defaults to 1.0. -/
def effPgain (inp : AxisIn) : ℚ :=
  if inp.pgain ≠ 0 then inp.pgain else 1

/-- Effective `ff1gain`: a value configured as exactly 0 defaults to 1.0. -/
def effFf1gain (inp : AxisIn) : ℚ :=
  if inp.ff1gain ≠ 0 then inp.ff1gain else 1

/-- Effective `deadband`: a value configured as exactly 0 defaults to one
unit of resolution `1 / scale`. -/
def effDeadband (inp : AxisIn) (p : ℚ) : ℚ :=
  if inp.deadband ≠ 0 then inp.deadband else 1 / p

/-- The command derivative `(command - prev_cmd) * periodrecip` sampled by
the position loop. -/
def cmdDeriv (dt : ℚ) (inp : AxisIn) (s : AxisState) : ℚ :=
  (inp.pos_cmd - s.prev_cmd) * (1 / dt)

/-- Control-law output `vel_cmd` of `update_freq`: P + feed-forward over the
deadbanded error in position mode, the raw velocity command in velocity
mode. -/
def ctrlVel (dt : ℚ) (inp : AxisIn) (s : AxisState) (p : ℚ) : ℚ :=
  if inp.pos_mode then
    effPgain inp * applyDeadband (effDeadband inp p) (ctrlError inp s) +
      cmdDeriv dt inp s * effFf1gain inp
  else inp.vel_cmd

/-- Symmetric clamp of the frequency command to `±max_freq`. -/
def clampMag (m v : ℚ) : ℚ :=
  if v > m then m else if v < -m then -m else v

/-- Slew limiter: move from `prev` toward `v` by at most `dv`. -/
def slewLimit (dv prev v : ℚ) : ℚ :=
  if v > prev + dv then prev + dv
  else if v < prev - dv then prev - dv
  else v

/-- One iteration of the per-axis loop of `update_freq` (rio.c lines
534-691), for tick duration `dt` (= `period * 1e-9` seconds; the code caches
`dt` and `recip_dt = 1/dt`, refreshed whenever the period changes, so at
every use they agree with the current period). -/
def updateAxis (c : Consts) (dt : ℚ) (inp : AxisIn) (s : AxisState) :
    AxisState :=
  let p := effScale s
  let mf := maxFreqOf c p s.maxvel
  let nv :=
    if c.stepperEnable0Null then 0
    else slewLimit (maxAcOf dt p s.maxaccel mf * dt) s.freq
          (clampMag mf (ctrlVel dt inp s p * p))
  { pos_scale := p,
    old_scale := s.pos_scale,
    scale_recip :=
      if s.pos_scale ≠ s.old_scale then (1 / c.STEP_MASK) / p
      else s.scale_recip,
    maxvel := maxvelParam c p s.maxvel,
    maxaccel := maxaccParam dt p s.maxaccel mf,
    freq := nv,
    prev_cmd := if inp.pos_mode then inp.pos_cmd else s.prev_cmd,
    cmd_d := if inp.pos_mode then cmdDeriv dt inp s else s.cmd_d,
    freq_cmd := nv,
    pos_fb := s.pos_fb }

/-- The whole `update_freq` loop: axis `i` is paired with its pin inputs.
Faithful to the source, the loop body's enable test does not depend on the
axis index (see `Consts.stepperEnable0Null`). -/
def update_freq (c : Consts) (dt : ℚ) (inps : List AxisIn)
    (ss : List AxisState) : List AxisState :=
  (ss.zip inps).map fun pr => updateAxis c dt pr.2 pr.1

/-- The `max_freq` value `update_freq` computes on a tick entered in state
`s`. -/
def maxFreqAt (c : Consts) (s : AxisState) : ℚ :=
  maxFreqOf c (effScale s) s.maxvel

/-- The `max_ac` value `update_freq` computes on a tick entered in state
`s`. -/
def maxAcAt (c : Consts) (dt : ℚ) (s : AxisState) : ℚ :=
  maxAcOf dt (effScale s) s.maxaccel (maxFreqAt c s)

/-- One tick's worth of external interaction with an axis: the pin inputs
plus optional `setp` writes to the two HAL-registered RW parameters
(`scale`, `maxaccel`) performed before the tick. -/
structure TickIn where
  inp : AxisIn
  scaleW : Option ℚ
  maxaccelW : Option ℚ

/-- Apply the external parameter writes of a tick. -/
def applyWrites (t : TickIn) (s : AxisState) : AxisState :=
  { s with pos_scale := t.scaleW.getD s.pos_scale,
           maxaccel := t.maxaccelW.getD s.maxaccel }

/-- A run of `update_freq` ticks for one axis, from component start-up. -/
def axisRun (c : Consts) (dt : ℚ) (ts : List TickIn) : AxisState :=
  ts.foldl (fun s t => updateAxis c dt t.inp (applyWrites t s)) initAxisState

/-- `spi_write` assembles `txData.jointFreqCmd[i] = PRU_OSC / data->freq[i]`
for every joint, before (and regardless of) the `SPIstatus` gate on the
actual transfer.  This is the divisor of that division. -/
def txJointFreqCmdDivisor (s : AxisState) : ℚ := s.freq

/-- The outbound frequency ratio `spi_write` computes for one joint. -/
def txJointFreqCmd (c : Consts) (s : AxisState) : ℚ :=
  c.PRU_OSC / txJointFreqCmdDivisor s

/-! ### Basic bounds for the limiter blocks -/

theorem maxFreqOf_nonneg (c : Consts) (p mv : ℚ)
    (hbf : 0 ≤ c.PRU_BASEFREQ) : 0 ≤ maxFreqOf c p mv := by
  unfold maxFreqOf
  split_ifs with h1 h2
  · linarith
  · linarith
  · exact mul_nonneg (le_of_lt (not_le.mp h1)) (abs_nonneg p)

theorem maxAcOf_nonneg (dt p ma mf : ℚ) (hdt : 0 < dt) (hmf : 0 ≤ mf) :
    0 ≤ maxAcOf dt p ma mf := by
  have hrec : 0 ≤ mf * (1 / dt) := by positivity
  unfold maxAcOf
  split_ifs with h1 h2
  · exact hrec
  · exact hrec
  · exact mul_nonneg (le_of_lt (not_le.mp h1)) (abs_nonneg p)

theorem maxFreqOf_of_nonpos (c : Consts) (p mv : ℚ) (h : mv ≤ 0) :
    maxFreqOf c p mv = c.PRU_BASEFREQ / 2 := by
  unfold maxFreqOf
  exact if_pos h

theorem maxvelParam_of_nonpos (c : Consts) (p mv : ℚ) (h : mv ≤ 0) :
    maxvelParam c p mv = 0 := by
  unfold maxvelParam
  exact if_pos h

theorem clampMag_abs_le (m v : ℚ) (hm : 0 ≤ m) : |clampMag m v| ≤ m := by
  unfold clampMag
  split_ifs with h1 h2
  · rw [abs_of_nonneg hm]
  · rw [abs_neg, abs_of_nonneg hm]
  · exact abs_le.mpr ⟨by linarith, by linarith⟩

theorem slewLimit_abs_sub_le (dv prev v : ℚ) (hdv : 0 ≤ dv) :
    |slewLimit dv prev v - prev| ≤ dv := by
  unfold slewLimit
  split_ifs with h1 h2
  · have h : prev + dv - prev = dv := by ring
    rw [h, abs_of_nonneg hdv]
  · have h : prev - dv - prev = -dv := by ring
    rw [h, abs_neg, abs_of_nonneg hdv]
  · exact abs_le.mpr ⟨by linarith, by linarith⟩

theorem slewLimit_abs_le (dv prev v m : ℚ) (hdv : 0 ≤ dv)
    (hp : |prev| ≤ m) (hv : |v| ≤ m) : |slewLimit dv prev v| ≤ m := by
  have hp' := abs_le.mp hp
  have hv' := abs_le.mp hv
  unfold slewLimit
  split_ifs with h1 h2
  · exact abs_le.mpr ⟨by linarith, by linarith⟩
  · exact abs_le.mpr ⟨by linarith, by linarith⟩
  · exact hv

/-- With the pin pointers non-null (any installed run), the published
frequency of a tick is the slew-limited, magnitude-clamped control output. -/
theorem updateAxis_freq (c : Consts) (dt : ℚ) (inp : AxisIn) (s : AxisState)
    (hn : c.stepperEnable0Null = false) :
    (updateAxis c dt inp s).freq =
      slewLimit (maxAcAt c dt s * dt) s.freq
        (clampMag (maxFreqAt c s) (ctrlVel dt inp s (effScale s) * effScale s)) := by
  simp [updateAxis, maxAcAt, maxFreqAt, hn]

theorem updateAxis_maxvel_nonpos (c : Consts) (dt : ℚ) (inp : AxisIn)
    (s : AxisState) (h : s.maxvel ≤ 0) :
    (updateAxis c dt inp s).maxvel = 0 := by
  simp [updateAxis, maxvelParam_of_nonpos _ _ _ h]

/-! ### The frequency-bound invariant along a run (claim C6) -/

/-- The run invariant: `maxvel` (never HAL-registered, zero-initialised)
stays non-positive, and the published frequency stays within the hardware
ceiling `PRU_BASEFREQ / 2`. -/
def FreqInv (c : Consts) (s : AxisState) : Prop :=
  s.maxvel ≤ 0 ∧ |s.freq| ≤ c.PRU_BASEFREQ / 2

theorem applyWrites_freq (t : TickIn) (s : AxisState) :
    (applyWrites t s).freq = s.freq := rfl

theorem applyWrites_maxvel (t : TickIn) (s : AxisState) :
    (applyWrites t s).maxvel = s.maxvel := rfl

theorem maxFreqAt_of_inv (c : Consts) (s : AxisState) (h : s.maxvel ≤ 0) :
    maxFreqAt c s = c.PRU_BASEFREQ / 2 :=
  maxFreqOf_of_nonpos c (effScale s) s.maxvel h

theorem updateAxis_step_bounds (c : Consts) (dt : ℚ) (inp : AxisIn)
    (s : AxisState) (hdt : 0 < dt) (hbf : 0 ≤ c.PRU_BASEFREQ)
    (hn : c.stepperEnable0Null = false) (hinv : FreqInv c s) :
    FreqInv c (updateAxis c dt inp s) ∧
      |(updateAxis c dt inp s).freq - s.freq| ≤ maxAcAt c dt s * dt ∧
      |(updateAxis c dt inp s).freq| ≤ maxFreqAt c s := by
  obtain ⟨hmv, hfr⟩ := hinv
  have hmf0 : 0 ≤ maxFreqAt c s :=
    maxFreqOf_nonneg c (effScale s) s.maxvel hbf
  have hmac0 : 0 ≤ maxAcAt c dt s :=
    maxAcOf_nonneg dt (effScale s) s.maxaccel (maxFreqAt c s) hdt hmf0
  have hdv0 : 0 ≤ maxAcAt c dt s * dt := mul_nonneg hmac0 (le_of_lt hdt)
  have heq : maxFreqAt c s = c.PRU_BASEFREQ / 2 := maxFreqAt_of_inv c s hmv
  have hclamp :
      |clampMag (maxFreqAt c s)
        (ctrlVel dt inp s (effScale s) * effScale s)| ≤ maxFreqAt c s :=
    clampMag_abs_le _ _ hmf0
  have hprev : |s.freq| ≤ maxFreqAt c s := by rw [heq]; exact hfr
  have hmag : |(updateAxis c dt inp s).freq| ≤ maxFreqAt c s := by
    rw [updateAxis_freq c dt inp s hn]
    exact slewLimit_abs_le _ _ _ _ hdv0 hprev hclamp
  refine ⟨⟨updateAxis_maxvel_nonpos c dt inp s hmv |>.le.trans (le_refl 0), ?_⟩, ?_, hmag⟩
  · rw [← heq]; exact hmag
  · rw [updateAxis_freq c dt inp s hn]
    exact slewLimit_abs_sub_le _ _ _ hdv0

theorem FreqInv_applyWrites (c : Consts) (t : TickIn) (s : AxisState)
    (h : FreqInv c s) : FreqInv c (applyWrites t s) := by
  obtain ⟨h1, h2⟩ := h
  exact ⟨h1, h2⟩

theorem FreqInv_init (c : Consts) (hbf : 0 ≤ c.PRU_BASEFREQ) :
    FreqInv c initAxisState := by
  constructor
  · simp [initAxisState]
  · simp [initAxisState]; linarith

theorem FreqInv_foldl (c : Consts) (dt : ℚ) (hdt : 0 < dt)
    (hbf : 0 ≤ c.PRU_BASEFREQ) (hn : c.stepperEnable0Null = false) :
    ∀ (ts : List TickIn) (s : AxisState), FreqInv c s →
      FreqInv c
        (ts.foldl (fun u t => updateAxis c dt t.inp (applyWrites t u)) s)
  | [], _, h => h
  | t :: ts, s, h =>
    FreqInv_foldl c dt hdt hbf hn ts _
      (updateAxis_step_bounds c dt t.inp (applyWrites t s) hdt hbf hn
        (FreqInv_applyWrites c t s h)).1

theorem FreqInv_axisRun (c : Consts) (dt : ℚ) (ts : List TickIn)
    (hdt : 0 < dt) (hbf : 0 ≤ c.PRU_BASEFREQ)
    (hn : c.stepperEnable0Null = false) : FreqInv c (axisRun c dt ts) :=
  FreqInv_foldl c dt hdt hbf hn ts initAxisState (FreqInv_init c hbf)

theorem axisRun_append (c : Consts) (dt : ℚ) (ts : List TickIn)
    (t : TickIn) :
    axisRun c dt (ts ++ [t]) =
      updateAxis c dt t.inp (applyWrites t (axisRun c dt ts)) := by
  simp [axisRun, List.foldl_append]

/-- C6: in any run of the component from start-up (arbitrary per-tick pin
inputs, arbitrary `setp` writes to the registered RW parameters `scale` and
`maxaccel`), the published frequency of every tick stays within the
`max_freq` the tick computes, and its change from the previous tick stays
within the tick's `max_ac * dt`. -/
theorem freq_bounded_and_slew_limited (c : Consts) (dt : ℚ)
    (ts : List TickIn) (t : TickIn) (hdt : 0 < dt)
    (hbf : 0 ≤ c.PRU_BASEFREQ) (hn : c.stepperEnable0Null = false) :
    |(axisRun c dt (ts ++ [t])).freq| ≤
        maxFreqAt c (applyWrites t (axisRun c dt ts)) ∧
      |(axisRun c dt (ts ++ [t])).freq - (axisRun c dt ts).freq| ≤
        maxAcAt c dt (applyWrites t (axisRun c dt ts)) * dt := by
  have hinv : FreqInv c (applyWrites t (axisRun c dt ts)) :=
    FreqInv_applyWrites c t _ (FreqInv_axisRun c dt ts hdt hbf hn)
  have hb := updateAxis_step_bounds c dt t.inp
    (applyWrites t (axisRun c dt ts)) hdt hbf hn hinv
  rw [axisRun_append]
  refine ⟨hb.2.2, ?_⟩
  rw [← applyWrites_freq t (axisRun c dt ts)]
  exact hb.2.1

/-- A representative concrete configuration (2 MHz oscillator header values
scaled down to keep arithmetic readable; the claims quantify over `Consts`,
so the particular numbers only feed witnesses and counterexamples). -/
def cStd : Consts :=
  { JOINTS := 3, PRU_BASEFREQ := 200000, PRU_OSC := 1000000,
    STEP_MASK := 65536, PRU_DATA := 100, PRU_ESTOP := 200,
    VARIABLE_INPUTS := 1, DIGITAL_INPUT_BYTES := 1,
    joints_fb_scale := fun _ => 1, joints_fb_type := fun _ => false,
    stepperEnable0Null := false }

def tW6 : TickIn :=
  { inp := { pos_mode := false, pos_cmd := 0, vel_cmd := 7, pgain := 0,
             ff1gain := 0, deadband := 0, enable := true },
    scaleW := none, maxaccelW := none }

theorem freq_bounded_and_slew_limited_witness :
    |(axisRun cStd 1 ([] ++ [tW6])).freq| ≤
        maxFreqAt cStd (applyWrites tW6 (axisRun cStd 1 [])) ∧
      |(axisRun cStd 1 ([] ++ [tW6])).freq - (axisRun cStd 1 []).freq| ≤
        maxAcAt cStd 1 (applyWrites tW6 (axisRun cStd 1 [])) * 1 :=
  freq_bounded_and_slew_limited cStd 1 [] tW6 (by norm_num)
    (by norm_num [cStd]) rfl

/-! ### Claim C1: the per-axis enable override (code bug) -/

/-- pin inputs of an enabled idle axis -/
def enA : AxisIn :=
  { pos_mode := false, pos_cmd := 0, vel_cmd := 0, pgain := 0, ff1gain := 0,
    deadband := 0, enable := true }

/-- pin inputs of a *disabled* axis that is commanded to move -/
def disB : AxisIn :=
  { pos_mode := false, pos_cmd := 0, vel_cmd := 7, pgain := 0, ff1gain := 0,
    deadband := 0, enable := false }

/-- C1 (evaluation of the code at the failing input): axis 1's enable input
is false, axis 0's is true, yet the tick publishes a non-zero frequency for
axis 1.  The C test `*data->stepperEnable == 0` compares the pin *pointer*
`data->stepperEnable[0]` with `NULL`, which is never true in an installed
component, so no axis's frequency is ever forced to 0 by its enable input. -/
theorem update_freq_ignores_axis_enable :
    disB.enable = false ∧
      ((update_freq cStd 1 [enA, disB]
          [initAxisState, initAxisState]).getD 1 initAxisState).freq ≠ 0 := by
  constructor
  · rfl
  · norm_num [update_freq, List.zip, updateAxis, effScale, maxFreqOf,
      maxAcOf, ctrlVel, clampMag, slewLimit, initAxisState, cStd, enA, disB]

/-! ### Claim C2: `maxvel ≤ 0` clamps the parameter but does not disable
motion -/

def iC2 : AxisIn :=
  { pos_mode := false, pos_cmd := 0, vel_cmd := 5, pgain := 0, ff1gain := 0,
    deadband := 0, enable := true }

/-- C2 counterexample: from start-up (`maxvel` is 0 and stays ≤ 0 forever),
a velocity command still produces a non-zero published frequency on the very
tick that clamps `maxvel` to 0 — motion is not disabled. -/
theorem maxvel_nonpos_motion_not_disabled :
    initAxisState.maxvel ≤ 0 ∧
      (updateAxis cStd 1 iC2 initAxisState).maxvel = 0 ∧
      (updateAxis cStd 1 iC2 initAxisState).freq ≠ 0 := by
  refine ⟨by norm_num [initAxisState], ?_, ?_⟩
  · norm_num [updateAxis, maxvelParam, effScale, initAxisState]
  · norm_num [updateAxis, effScale, maxFreqOf, maxAcOf, maxvelParam,
      maxaccParam, ctrlVel, clampMag, slewLimit, initAxisState, cStd, iC2]

/-- C2 amended: a non-positive `maxvel` parameter is clamped to 0, but the
tick's frequency ceiling stays at the hardware maximum `PRU_BASEFREQ / 2`
(the `maxvel ≤ 0` branch never lowers `max_freq`), so motion on the axis is
not disabled. -/
theorem maxvel_nonpos_clamped_ceiling_unchanged (c : Consts) (dt : ℚ)
    (inp : AxisIn) (s : AxisState) (h : s.maxvel ≤ 0) :
    (updateAxis c dt inp s).maxvel = 0 ∧
      maxFreqAt c s = c.PRU_BASEFREQ / 2 :=
  ⟨updateAxis_maxvel_nonpos c dt inp s h, maxFreqAt_of_inv c s h⟩

theorem maxvel_nonpos_clamped_ceiling_unchanged_witness :
    (updateAxis cStd 1 iC2 initAxisState).maxvel = 0 ∧
      maxFreqAt cStd initAxisState = cStd.PRU_BASEFREQ / 2 :=
  maxvel_nonpos_clamped_ceiling_unchanged cStd 1 iC2 initAxisState
    (by norm_num [initAxisState])

/-! ### Claim C3: the end-to-end position-mode scenario -/

/-- The scenario state: `scale = 1000` (unchanged since the last tick),
`maxvel = 100` so the parameter is in range, everything else at start-up
values; feedback held at 0, previous command 0. -/
def sC3 : AxisState :=
  { initAxisState with pos_scale := 1000, old_scale := 1000, maxvel := 100 }

/-- The scenario inputs: position mode, command stepping to 1.0,
`pgain = 1`, `ff1gain = 0`, `deadband = 0`. -/
def iC3 : AxisIn :=
  { pos_mode := true, pos_cmd := 1, vel_cmd := 0, pgain := 1, ff1gain := 0,
    deadband := 0, enable := true }

/-- C3 counterexample (tick period 1 ms): the control-law output is not 1.0
and the clamped frequency target is not 1000, because the deadband
configured as 0 defaults to `1/scale = 0.001` and the `ff1gain` configured
as 0 defaults to 1.0, which injects the command derivative
`(1 - 0) * recip_dt = 1000`. -/
theorem scenario_vel_cmd_not_one :
    ctrlVel (1 / 1000) iC3 sC3 (effScale sC3) ≠ 1 ∧
      clampMag (maxFreqAt cStd sC3)
          (ctrlVel (1 / 1000) iC3 sC3 (effScale sC3) * effScale sC3) ≠
        1000 := by
  constructor
  · norm_num [ctrlVel, effScale, effPgain, effFf1gain, effDeadband,
      applyDeadband, ctrlError, cmdDeriv, sC3, iC3, initAxisState]
  · norm_num [ctrlVel, effScale, effPgain, effFf1gain, effDeadband,
      applyDeadband, ctrlError, cmdDeriv, clampMag, maxFreqAt, maxFreqOf,
      sC3, iC3, cStd, initAxisState]

/-- C3 amended (tick period 1 ms, `PRU_BASEFREQ = 200000`, `maxvel = 100`,
`maxaccel = 1`): the raw error is 1.0, but the deadband defaults to
`1/scale = 0.001` and `ff1gain` defaults to 1.0, so the control output is
`0.999 + recip_dt = 1000.999`; the frequency target `1000999` is clamped to
`max_freq = 100000`, and the published first-tick frequency is the
slew-limited value `max_ac * dt = 1`. -/
theorem scenario_first_tick_values :
    ctrlError iC3 sC3 = 1 ∧
      effDeadband iC3 (effScale sC3) = 1 / 1000 ∧
      effFf1gain iC3 = 1 ∧
      ctrlVel (1 / 1000) iC3 sC3 (effScale sC3) = 999 / 1000 + 1000 ∧
      maxFreqAt cStd sC3 = 100000 ∧
      maxAcAt cStd (1 / 1000) sC3 * (1 / 1000) = 1 ∧
      (updateAxis cStd (1 / 1000) iC3 sC3).freq = 1 := by
  refine ⟨?_, ?_, ?_, ?_, ?_, ?_, ?_⟩ <;>
    norm_num [ctrlError, effDeadband, effFf1gain, effPgain, applyDeadband,
      cmdDeriv, ctrlVel, effScale, maxFreqAt, maxFreqOf, maxAcAt, maxAcOf,
      updateAxis, maxvelParam, maxaccParam, clampMag, slewLimit, sC3, iC3,
      cStd, initAxisState]

/-! ### Claim C8: the too-small-scale clamp -/

theorem effScale_of_one (u : AxisState) (hu : u.pos_scale = 1) :
    effScale u = 1 := by
  unfold effScale
  split_ifs with h
  · rfl
  · exact hu

theorem updateAxis_pos_scale_one (c : Consts) (dt : ℚ) (j : AxisIn)
    (u : AxisState) (hu : u.pos_scale = 1) :
    (updateAxis c dt j u).pos_scale = 1 := by
  simp [updateAxis, effScale_of_one u hu]

theorem pos_scale_one_stable (c : Consts) (dt : ℚ) :
    ∀ (ins : List AxisIn) (u : AxisState), u.pos_scale = 1 →
      (ins.foldl (fun v j => updateAxis c dt j v) u).pos_scale = 1
  | [], _, hu => hu
  | j :: ins, u, hu =>
    pos_scale_one_stable c dt ins _ (updateAxis_pos_scale_one c dt j u hu)

/-- C8 amended: when the scale parameter is set to a value of magnitude
below 1e-20 that *differs from the stored previous scale*, the next tick
replaces it by 1.0, recomputes the cached reciprocal from the corrected
scale, uses 1.0 as the tick's effective scale, and 1.0 persists over any
following ticks (absent further writes).  The change-detection guard is
essential: see `scale_zero_before_first_tick_not_corrected`. -/
theorem scale_too_small_clamped_to_one (c : Consts) (dt : ℚ) (inp : AxisIn)
    (s : AxisState) (ins : List AxisIn) (h1 : s.pos_scale ≠ s.old_scale)
    (h2 : |s.pos_scale| < 1 / 10 ^ 20) :
    effScale s = 1 ∧
      (updateAxis c dt inp s).pos_scale = 1 ∧
      (updateAxis c dt inp s).scale_recip = (1 / c.STEP_MASK) / 1 ∧
      (ins.foldl (fun v j => updateAxis c dt j v)
          (updateAxis c dt inp s)).pos_scale = 1 := by
  have hp : effScale s = 1 := by unfold effScale; exact if_pos ⟨h1, h2⟩
  have h3 : (updateAxis c dt inp s).pos_scale = 1 := by
    simp [updateAxis, hp]
  refine ⟨hp, h3, ?_, pos_scale_one_stable c dt ins _ h3⟩
  simp [updateAxis, hp, h1]

def sW8 : AxisState := { initAxisState with pos_scale := 1 / 10 ^ 21 }

theorem scale_too_small_clamped_to_one_witness :
    effScale sW8 = 1 ∧
      (updateAxis cStd 1 enA sW8).pos_scale = 1 ∧
      (updateAxis cStd 1 enA sW8).scale_recip = (1 / cStd.STEP_MASK) / 1 ∧
      (([] : List AxisIn).foldl (fun v j => updateAxis cStd 1 j v)
          (updateAxis cStd 1 enA sW8)).pos_scale = 1 :=
  scale_too_small_clamped_to_one cStd 1 enA sW8 []
    (by norm_num [sW8, initAxisState])
    (by rw [abs_of_pos] <;> norm_num [sW8, initAxisState])

/-- The reachable state in which the scale parameter was set to 0 before the
very first `update_freq` tick: `old_scale` is still at its zero-initialised
value, so `pos_scale = old_scale = 0`. -/
def sC8 : AxisState := { initAxisState with pos_scale := 0, old_scale := 0 }

/-- C8 counterexample: with the scale parameter set to 0 before the first
tick, the change detector (`pos_scale != old_scale`, and `old_scale` is
zero-initialised) never fires, so the too-small value is *not* replaced by
1.0 — the tick runs with effective scale 0 and leaves the parameter at 0. -/
theorem scale_zero_before_first_tick_not_corrected :
    sC8.pos_scale = 0 ∧ effScale sC8 = 0 ∧
      (updateAxis cStd 1 enA sC8).pos_scale = 0 ∧
      (updateAxis cStd 1 enA sC8).pos_scale ≠ 1 := by
  refine ⟨rfl, ?_, ?_, ?_⟩ <;>
    norm_num [effScale, updateAxis, sC8, initAxisState]

/-! ### Claim C10: the unguarded division in `spi_write` -/

/-- C10 amended: in the start-up state (before any motion) every axis's
frequency command is 0, and `spi_write` assembles
`txData.jointFreqCmd[i] = PRU_OSC / data->freq[i]` with no guard against a
zero divisor — the divisor is exactly 0.  (The original claim's side remark
that the divisor is 0 on every tick with the axis enable input false fails,
because the enable test in `update_freq` is vacuous: see
`enable_false_tick_freq_nonzero`.) -/
theorem startup_freq_cmd_divisor_zero (c : Consts) :
    txJointFreqCmdDivisor initAxisState = 0 ∧
      txJointFreqCmd c initAxisState = c.PRU_OSC / 0 := by
  constructor <;> rfl

def i10 : AxisIn :=
  { pos_mode := false, pos_cmd := 0, vel_cmd := 9, pgain := 0, ff1gain := 0,
    deadband := 0, enable := false }

/-- C10 counterexample to the original claim's "frequency is 0 on every tick
where the axis enable input is false": a disabled axis still publishes a
non-zero frequency. -/
theorem enable_false_tick_freq_nonzero :
    i10.enable = false ∧
      (updateAxis cStd 1 i10 initAxisState).freq ≠ 0 := by
  constructor
  · rfl
  · norm_num [updateAxis, effScale, maxFreqOf, maxAcOf, ctrlVel, clampMag,
      slewLimit, initAxisState, cStd, i10]

/-! ### The read step `spi_read` -/

/-- Reduce an integer to the signed 32-bit value with the same low 32 bits
(the effect of storing into an `int32_t` / `hal_s32_t`). -/
def wrap32 (x : Int) : Int := (x + 2147483648) % 4294967296 - 2147483648

theorem wrap32_eq_self (x : Int) (h1 : -2147483648 ≤ x)
    (h2 : x < 2147483648) : wrap32 x = x := by
  unfold wrap32; omega

theorem wrap32_add_sub (c d : Int) (h1 : -2147483648 ≤ d)
    (h2 : d < 2147483648) : wrap32 (wrap32 (c + d) - c) = d := by
  unfold wrap32; omega

/-- Persistent state touched by `spi_read`: the handshake flags, the per-axis
feedback statics and output pins, the process-variable and digital-input
output pins.  (`pos_scale` is the same HAL parameter as in `AxisState`; it
is read, and `scale_recip` written, by the decode loop.) -/
structure ReadState where
  SPIresetOld : Bool
  SPIstatus : Bool
  pos_scale : Nat → ℚ
  scale_recip : Nat → ℚ
  pos_fb : Nat → ℚ
  count : Nat → Int
  accum : Nat → Int
  old_count : Nat → Int
  processVariable : Nat → ℚ
  inputs : Nat → Bool

/-- Per-tick inputs of `spi_read`: the control pins and the inbound packet
captured by the exchange (if one happens). -/
structure ReadIn where
  SPIenable : Bool
  SPIreset : Bool
  header : Int
  jointFeedback : Nat → Int
  rxPV : Nat → ℚ
  rxInputs : Nat → Nat

/-- `rxData.jointFeedback[i] /= joints_fb_scale[i]` (C integer division
truncates toward zero). -/
def fbVal (c : Consts) (inp : ReadIn) (j : Nat) : Int :=
  Int.tdiv (inp.jointFeedback j) (c.joints_fb_scale j)

/-- `accum[i] += (int32)(jointFeedback[i] - old_count[i])` for an
incremental axis. -/
def newAccum (c : Consts) (inp : ReadIn) (s : ReadState) (j : Nat) : Int :=
  s.accum j + wrap32 (fbVal c inp j - s.old_count j)

/-- The position feedback published for axis `j` by a valid-payload tick:
absolute axes divide the raw counter by the scale; incremental axes publish
`(accum + 0.5) / scale`. -/
def decodePosFb (c : Consts) (inp : ReadIn) (s : ReadState) (j : Nat) : ℚ :=
  if c.joints_fb_type j then (fbVal c inp j : ℚ) / s.pos_scale j
  else ((newAccum c inp s j : ℚ) + 1 / 2) / s.pos_scale j

/-- The digital-input unpacking loop: for byte `bi` and bit `i`, pin
`inputs[bi*8 + i*2]` receives the bit and `inputs[bi*8 + i*2 + 1]` its
complement, in loop order (the source's indexing is kept verbatim). -/
def writeInputs (nbytes : Nat) (rx : Nat → Nat) (f : Nat → Bool) :
    Nat → Bool :=
  (List.range nbytes).foldl
    (fun g bi =>
      (List.range 8).foldl
        (fun g' i => fun k =>
          if k = bi * 8 + i * 2 then Nat.testBit (rx bi) i
          else if k = bi * 8 + i * 2 + 1 then !Nat.testBit (rx bi) i
          else g' k)
        g)
    f

/-- One tick of `spi_read` (rio.c lines 696-792), returning the next state
and whether a duplex exchange was attempted (`spi_transfer` reached).  The
`PRU_ESTOP` case of the C switch has no `break` and falls through to the
default case; both set `SPIstatus = 0` and only log, so they merge into the
single non-`PRU_DATA` branch here.  `SPIresetOld` is recorded at the very
end of every tick. -/
def spi_read_t (c : Consts) (inp : ReadIn) (s : ReadState) :
    ReadState × Bool :=
  if inp.SPIenable then
    if (inp.SPIreset && !s.SPIresetOld) || s.SPIstatus then
      if inp.header = c.PRU_DATA then
        ({ s with
            SPIstatus := true,
            SPIresetOld := inp.SPIreset,
            pos_fb := fun j =>
              if j < c.JOINTS then decodePosFb c inp s j else s.pos_fb j,
            count := fun j =>
              if j < c.JOINTS && !c.joints_fb_type j then
                wrap32 (newAccum c inp s j)
              else s.count j,
            accum := fun j =>
              if j < c.JOINTS && !c.joints_fb_type j then newAccum c inp s j
              else s.accum j,
            old_count := fun j =>
              if j < c.JOINTS && !c.joints_fb_type j then fbVal c inp j
              else s.old_count j,
            scale_recip := fun j =>
              if j < c.JOINTS && !c.joints_fb_type j then s.pos_scale j
              else s.scale_recip j,
            processVariable := fun j =>
              if j < c.VARIABLE_INPUTS then inp.rxPV j
              else s.processVariable j,
            inputs := writeInputs c.DIGITAL_INPUT_BYTES inp.rxInputs
              s.inputs },
          true)
      else ({ s with SPIstatus := false, SPIresetOld := inp.SPIreset }, true)
    else ({ s with SPIresetOld := inp.SPIreset }, false)
  else ({ s with SPIstatus := false, SPIresetOld := inp.SPIreset }, false)

/-- The state transition of one `spi_read` tick. -/
def spi_read (c : Consts) (inp : ReadIn) (s : ReadState) : ReadState :=
  (spi_read_t c inp s).1

/-- A run of consecutive `spi_read` ticks. -/
def readRun (c : Consts) (ins : List ReadIn) (s : ReadState) : ReadState :=
  ins.foldl (fun u inp => spi_read c inp u) s

/-- The exchange-attempt flags along a run of `spi_read` ticks. -/
def readAttempts (c : Consts) : List ReadIn → ReadState → List Bool
  | [], _ => []
  | inp :: ins, s =>
    (spi_read_t c inp s).2 :: readAttempts c ins (spi_read c inp s)

/-- "No reset rising edge occurs" along a tick sequence, relative to the
stored previous reset value `old`: the reset input is never true on a tick
whose previous tick (or the stored flag, for the first tick) had it
false. -/
def noRising : Bool → List ReadIn → Prop
  | _, [] => True
  | old, inp :: ins =>
    (inp.SPIreset = true → old = true) ∧ noRising inp.SPIreset ins

/-! ### Claim C4: the exchange-attempt gate and its halting behaviour -/

theorem spi_read_t_attempt (c : Consts) (inp : ReadIn) (s : ReadState) :
    (spi_read_t c inp s).2 =
      (inp.SPIenable && ((inp.SPIreset && !s.SPIresetOld) || s.SPIstatus)) := by
  unfold spi_read_t
  cases he : inp.SPIenable
  · simp [he]
  · cases hc : ((inp.SPIreset && !s.SPIresetOld) || s.SPIstatus)
    · simp [he, hc]
    · by_cases hd : inp.header = c.PRU_DATA <;> simp [he, hc, hd]

theorem spi_read_no_attempt_step (c : Consts) (inp : ReadIn) (s : ReadState)
    (hst : s.SPIstatus = false)
    (hnr : inp.SPIreset = true → s.SPIresetOld = true) :
    (spi_read c inp s).SPIstatus = false ∧
      (spi_read c inp s).SPIresetOld = inp.SPIreset ∧
      (spi_read_t c inp s).2 = false := by
  have hq : ¬(inp.SPIreset = true ∧ s.SPIresetOld = false) := by
    rintro ⟨hr, ho⟩
    rw [hnr hr] at ho
    exact absurd ho (by simp)
  unfold spi_read spi_read_t
  cases he : inp.SPIenable <;> simp [he, hst, hq]

theorem readAttempts_all_false (c : Consts) :
    ∀ (ins : List ReadIn) (t : ReadState), t.SPIstatus = false →
      noRising t.SPIresetOld ins → ∀ b ∈ readAttempts c ins t, b = false
  | [], _, _, _ => by simp [readAttempts]
  | inp :: ins, t, hst, hnr => by
    obtain ⟨h1, h2⟩ := hnr
    obtain ⟨hs', hro', hatt⟩ := spi_read_no_attempt_step c inp t hst h1
    intro b hb
    simp only [readAttempts, List.mem_cons] at hb
    rcases hb with hb | hb
    · rw [hb, hatt]
    · exact readAttempts_all_false c ins (spi_read c inp t) hs'
        (by rw [hro']; exact h2) b hb

/-- C4: with the link enabled, a tick of the read step attempts a duplex
exchange exactly when the reset flag shows a rising edge or the status flag
is currently true; and once status is false, a tick sequence without a reset
rising edge attempts no exchange at all. -/
theorem spi_read_attempt_iff_and_halts (c : Consts) (inp : ReadIn)
    (s t : ReadState) (ins : List ReadIn) (hst : t.SPIstatus = false)
    (hnr : noRising t.SPIresetOld ins) :
    (spi_read_t c inp s).2 =
        (inp.SPIenable && ((inp.SPIreset && !s.SPIresetOld) || s.SPIstatus)) ∧
      ∀ b ∈ readAttempts c ins t, b = false :=
  ⟨spi_read_t_attempt c inp s, readAttempts_all_false c ins t hst hnr⟩

/-- A quiescent concrete read state. -/
def sR0 : ReadState :=
  { SPIresetOld := false, SPIstatus := false, pos_scale := fun _ => 1,
    scale_recip := fun _ => 0, pos_fb := fun _ => 0, count := fun _ => 0,
    accum := fun _ => 0, old_count := fun _ => 0,
    processVariable := fun _ => 0, inputs := fun _ => false }

/-- A tick input with a bad (corrupt) header and no reset request. -/
def badIn : ReadIn :=
  { SPIenable := true, SPIreset := false, header := 42,
    jointFeedback := fun _ => 0, rxPV := fun _ => 0, rxInputs := fun _ => 0 }

/-- A tick input with reset held high and a valid header. -/
def resetIn : ReadIn :=
  { SPIenable := true, SPIreset := true, header := 100,
    jointFeedback := fun _ => 0, rxPV := fun _ => 0, rxInputs := fun _ => 0 }

theorem spi_read_attempt_iff_and_halts_witness :
    (spi_read_t cStd resetIn sR0).2 =
        (resetIn.SPIenable &&
          ((resetIn.SPIreset && !sR0.SPIresetOld) || sR0.SPIstatus)) ∧
      ∀ b ∈ readAttempts cStd [badIn, badIn] sR0, b = false :=
  spi_read_attempt_iff_and_halts cStd resetIn sR0 sR0 [badIn, badIn] rfl
    (by simp [noRising, badIn, sR0])

/-! ### Claim C5: status is true only after a valid-data exchange -/

/-- C5: after any tick of the read step, the status flag is true exactly
when that tick attempted an exchange and the inbound header equalled the
valid-data tag; a disabled tick, and any tick whose inbound header differs
from the valid-data tag (e-stop or corrupt), leaves status false. -/
theorem spi_read_status_characterization (c : Consts) (inp : ReadIn)
    (s : ReadState) :
    ((spi_read c inp s).SPIstatus = true ↔
        (spi_read_t c inp s).2 = true ∧ inp.header = c.PRU_DATA) ∧
      (inp.SPIenable = false → (spi_read c inp s).SPIstatus = false) ∧
      (inp.header ≠ c.PRU_DATA → (spi_read c inp s).SPIstatus = false) := by
  unfold spi_read spi_read_t
  cases he : inp.SPIenable
  · simp [he]
  · cases hc : ((inp.SPIreset && !s.SPIresetOld) || s.SPIstatus)
    · have hs : s.SPIstatus = false := by
        rcases Bool.or_eq_false_iff.mp hc with ⟨h1, h2⟩
        exact h2
      simp [he, hc, hs]
    · by_cases hd : inp.header = c.PRU_DATA <;> simp [he, hc, hd]

/-- A read state with the link up (status true). -/
def sRup : ReadState := { sR0 with SPIstatus := true }

/-- A valid-data tick input. -/
def goodIn : ReadIn :=
  { SPIenable := true, SPIreset := false, header := 100,
    jointFeedback := fun _ => 5, rxPV := fun _ => 3, rxInputs := fun _ => 1 }

theorem spi_read_status_characterization_witness :
    ((spi_read cStd goodIn sRup).SPIstatus = true ↔
        (spi_read_t cStd goodIn sRup).2 = true ∧
          goodIn.header = cStd.PRU_DATA) ∧
      (goodIn.SPIenable = false →
        (spi_read cStd goodIn sRup).SPIstatus = false) ∧
      (goodIn.header ≠ cStd.PRU_DATA →
        (spi_read cStd goodIn sRup).SPIstatus = false) :=
  spi_read_status_characterization cStd goodIn sRup

/-! ### Claim C7: an e-stop header faults the link and preserves feedback -/

/-- C7: on a tick with the link up (status true, so the exchange is
attempted) whose inbound header is the e-stop tag, the read step drops the
published status from true to false and leaves every feedback register
untouched: position feedback, raw-count outputs, accumulators, stored
previous counters, analog process values and digital-input signals. -/
theorem estop_faults_and_preserves_feedback (c : Consts) (inp : ReadIn)
    (s : ReadState) (hen : inp.SPIenable = true) (hst : s.SPIstatus = true)
    (hdr : inp.header = c.PRU_ESTOP) (hne : c.PRU_ESTOP ≠ c.PRU_DATA) :
    (spi_read_t c inp s).2 = true ∧
      (spi_read c inp s).SPIstatus = false ∧
      (spi_read c inp s).pos_fb = s.pos_fb ∧
      (spi_read c inp s).count = s.count ∧
      (spi_read c inp s).accum = s.accum ∧
      (spi_read c inp s).old_count = s.old_count ∧
      (spi_read c inp s).processVariable = s.processVariable ∧
      (spi_read c inp s).inputs = s.inputs := by
  have hd : ¬ inp.header = c.PRU_DATA := by rw [hdr]; exact hne
  unfold spi_read spi_read_t
  simp [hen, hst, hd]

/-- An e-stop tick input. -/
def estopIn : ReadIn :=
  { SPIenable := true, SPIreset := false, header := 200,
    jointFeedback := fun _ => 5, rxPV := fun _ => 3, rxInputs := fun _ => 1 }

theorem estop_faults_and_preserves_feedback_witness :
    (spi_read_t cStd estopIn sRup).2 = true ∧
      (spi_read cStd estopIn sRup).SPIstatus = false ∧
      (spi_read cStd estopIn sRup).pos_fb = sRup.pos_fb ∧
      (spi_read cStd estopIn sRup).count = sRup.count ∧
      (spi_read cStd estopIn sRup).accum = sRup.accum ∧
      (spi_read cStd estopIn sRup).old_count = sRup.old_count ∧
      (spi_read cStd estopIn sRup).processVariable = sRup.processVariable ∧
      (spi_read cStd estopIn sRup).inputs = sRup.inputs :=
  estop_faults_and_preserves_feedback cStd estopIn sRup rfl rfl rfl
    (by decide)

/-! ### Claim C9: rollover-safe incremental accumulation -/

/-- The raw 32-bit counter after applying a list of true per-tick
displacements, starting from `c0`. -/
def cAfter (c0 : Int) (ds : List Int) : Int :=
  ds.foldl (fun a d => wrap32 (a + d)) c0

/-- The sequence of raw 32-bit counter readings generated by the true
per-tick displacements `ds` from the initial counter `c0`. -/
def counterSeq : Int → List Int → List Int
  | _, [] => []
  | c0, d :: ds => wrap32 (c0 + d) :: counterSeq (wrap32 (c0 + d)) ds

/-- A valid-payload tick whose counters all read `v`. -/
def mkDataIn (c : Consts) (v : Int) : ReadIn :=
  { SPIenable := true, SPIreset := false, header := c.PRU_DATA,
    jointFeedback := fun _ => v, rxPV := fun _ => 0, rxInputs := fun _ => 0 }

theorem spi_read_inc_tick (c : Consts) (i : Nat) (v : Int) (s : ReadState)
    (hi : i < c.JOINTS) (htype : c.joints_fb_type i = false)
    (hsc : c.joints_fb_scale i = 1) (hst : s.SPIstatus = true) :
    (spi_read c (mkDataIn c v) s).SPIstatus = true ∧
      (spi_read c (mkDataIn c v) s).accum i =
        s.accum i + wrap32 (v - s.old_count i) ∧
      (spi_read c (mkDataIn c v) s).old_count i = v ∧
      (spi_read c (mkDataIn c v) s).count i =
        wrap32 (s.accum i + wrap32 (v - s.old_count i)) ∧
      (spi_read c (mkDataIn c v) s).pos_fb i =
        (((s.accum i + wrap32 (v - s.old_count i) : Int) : ℚ) + 1 / 2) /
          s.pos_scale i ∧
      (spi_read c (mkDataIn c v) s).pos_scale = s.pos_scale := by
  unfold spi_read spi_read_t
  simp [mkDataIn, hst, hi, htype, newAccum, fbVal, hsc, decodePosFb,
    Int.tdiv_one]

theorem incRun_aux (c : Consts) (i : Nat) (hi : i < c.JOINTS)
    (htype : c.joints_fb_type i = false) (hsc : c.joints_fb_scale i = 1) :
    ∀ (ds : List Int) (c0 : Int) (s : ReadState),
      (∀ d ∈ ds, -2147483648 ≤ d ∧ d < 2147483648) →
      s.SPIstatus = true → s.old_count i = c0 →
      (readRun c ((counterSeq c0 ds).map (mkDataIn c)) s).SPIstatus = true ∧
        (readRun c ((counterSeq c0 ds).map (mkDataIn c)) s).accum i =
          s.accum i + ds.sum ∧
        (readRun c ((counterSeq c0 ds).map (mkDataIn c)) s).old_count i =
          cAfter c0 ds ∧
        (readRun c ((counterSeq c0 ds).map (mkDataIn c)) s).pos_scale =
          s.pos_scale ∧
        (ds ≠ [] →
          (readRun c ((counterSeq c0 ds).map (mkDataIn c)) s).count i =
              wrap32
                ((readRun c ((counterSeq c0 ds).map (mkDataIn c)) s).accum
                  i) ∧
            (readRun c ((counterSeq c0 ds).map (mkDataIn c)) s).pos_fb i =
              (((readRun c ((counterSeq c0 ds).map (mkDataIn c)) s).accum i :
                    ℚ) +
                  1 / 2) /
                s.pos_scale i) := by
  intro ds
  induction ds with
  | nil =>
    intro c0 s hd hst hold
    refine ⟨hst, by simp [counterSeq, readRun], ?_, rfl, by simp⟩
    simp [counterSeq, readRun, cAfter, hold]
  | cons d ds ih =>
    intro c0 s hd hst hold
    have hdr := hd d (List.mem_cons_self d ds)
    have hdrest : ∀ x ∈ ds, -2147483648 ≤ x ∧ x < 2147483648 := by
      intro x hx
      exact hd x (List.mem_cons_of_mem d hx)
    obtain ⟨h1, h2, h3, h4, h5, h6⟩ :=
      spi_read_inc_tick c i (wrap32 (c0 + d)) s hi htype hsc hst
    have hdiff : wrap32 (wrap32 (c0 + d) - s.old_count i) = d := by
      rw [hold]
      exact wrap32_add_sub c0 d hdr.1 hdr.2
    rw [hdiff] at h2 h4 h5
    have hrw :
        (counterSeq c0 (d :: ds)).map (mkDataIn c) =
          mkDataIn c (wrap32 (c0 + d)) ::
            (counterSeq (wrap32 (c0 + d)) ds).map (mkDataIn c) := by
      simp [counterSeq]
    have hstep :
        readRun c ((counterSeq c0 (d :: ds)).map (mkDataIn c)) s =
          readRun c ((counterSeq (wrap32 (c0 + d)) ds).map (mkDataIn c))
            (spi_read c (mkDataIn c (wrap32 (c0 + d))) s) := by
      rw [hrw]; simp [readRun]
    obtain ⟨g1, g2, g3, g4, g5⟩ :=
      ih (wrap32 (c0 + d)) (spi_read c (mkDataIn c (wrap32 (c0 + d))) s)
        hdrest h1 h3
    rw [hstep]
    refine ⟨g1, ?_, ?_, ?_, ?_⟩
    · rw [g2, h2, List.sum_cons]; ring
    · rw [g3]
      simp [cAfter]
    · rw [g4, h6]
    · intro _
      rcases List.eq_nil_or_concat ds with hds | _
      · subst hds
        simp only [counterSeq, List.map_nil, readRun, List.foldl_nil]
        rw [h2]
        exact ⟨h4, h5⟩
      · have hne : ds ≠ [] := by
          rintro rfl
          simp_all
        have := g5 hne
        rw [h6] at this
        exact this

/-- C9 amended: for an incremental-feedback axis and any sequence of true
per-tick displacements within half the 32-bit counter range, feeding the
wrapped raw counter readings through valid-payload read ticks makes the
64-bit accumulator advance by exactly the true cumulative displacement
(rollover-safe, monotone in the direction of motion), and publishes
`(accum + 0.5) / scale` as position — but the raw-count output pin is a
32-bit register, so it receives the accumulator *reduced to signed 32 bits*,
not the accumulator itself (see `count_pin_truncates_accumulator`). -/
theorem incremental_feedback_rollover_safe (c : Consts) (i : Nat)
    (ds : List Int) (c0 : Int) (s : ReadState) (hi : i < c.JOINTS)
    (htype : c.joints_fb_type i = false) (hsc : c.joints_fb_scale i = 1)
    (hd : ∀ d ∈ ds, -2147483648 ≤ d ∧ d < 2147483648)
    (hst : s.SPIstatus = true) (hold : s.old_count i = c0) (hne : ds ≠ []) :
    (readRun c ((counterSeq c0 ds).map (mkDataIn c)) s).accum i =
        s.accum i + ds.sum ∧
      (readRun c ((counterSeq c0 ds).map (mkDataIn c)) s).count i =
        wrap32
          ((readRun c ((counterSeq c0 ds).map (mkDataIn c)) s).accum i) ∧
      (readRun c ((counterSeq c0 ds).map (mkDataIn c)) s).pos_fb i =
        (((readRun c ((counterSeq c0 ds).map (mkDataIn c)) s).accum i : ℚ) +
            1 / 2) /
          s.pos_scale i := by
  obtain ⟨g1, g2, g3, g4, g5⟩ :=
    incRun_aux c i hi htype hsc ds c0 s hd hst hold
  obtain ⟨g6, g7⟩ := g5 hne
  exact ⟨g2, g6, g7⟩

theorem incremental_feedback_rollover_safe_witness :
    (readRun cStd ((counterSeq 0 [3, -4]).map (mkDataIn cStd)) sRup).accum
          0 =
        sRup.accum 0 + ([3, -4] : List Int).sum ∧
      (readRun cStd ((counterSeq 0 [3, -4]).map (mkDataIn cStd)) sRup).count
          0 =
        wrap32
          ((readRun cStd ((counterSeq 0 [3, -4]).map (mkDataIn cStd))
              sRup).accum 0) ∧
      (readRun cStd ((counterSeq 0 [3, -4]).map (mkDataIn cStd))
            sRup).pos_fb 0 =
        (((readRun cStd ((counterSeq 0 [3, -4]).map (mkDataIn cStd))
                sRup).accum 0 :
              ℚ) +
            1 / 2) /
          sRup.pos_scale 0 :=
  incremental_feedback_rollover_safe cStd 0 [3, -4] 0 sRup (by decide)
    (by decide) (by decide) (by decide) rfl rfl (by decide)

/-- C9 counterexample: two maximal in-range displacements drive the
accumulator to `2^32 - 2`, past the `int32` range; the raw-count output pin
(`hal_s32_t`) then reads `-2`, which differs from the accumulator — the
original claim's "the raw-count output equals the accumulator" fails. -/
theorem count_pin_truncates_accumulator :
    (∀ d ∈ ([2147483647, 2147483647] : List Int),
        -2147483648 ≤ d ∧ d < 2147483648) ∧
      (readRun cStd
            ((counterSeq 0 [2147483647, 2147483647]).map (mkDataIn cStd))
            sRup).accum 0 =
        4294967294 ∧
      (readRun cStd
            ((counterSeq 0 [2147483647, 2147483647]).map (mkDataIn cStd))
            sRup).count 0 =
        -2 ∧
      (readRun cStd
            ((counterSeq 0 [2147483647, 2147483647]).map (mkDataIn cStd))
            sRup).count 0 ≠
        (readRun cStd
            ((counterSeq 0 [2147483647, 2147483647]).map (mkDataIn cStd))
            sRup).accum 0 := by
  refine ⟨by decide, ?_, ?_, ?_⟩ <;> decide

theorem startup_freq_cmd_divisor_zero_witness :
    txJointFreqCmdDivisor initAxisState = 0 ∧
      txJointFreqCmd cStd initAxisState = cStd.PRU_OSC / 0 :=
  startup_freq_cmd_divisor_zero cStd
